import Mathlib

/-!
Verification of the diff-sizing and prompt-construction pipeline of the
`cmai` git commit-message generator (`git-commit.py`).

The Python source is shallowly embedded: strings are `List Char`, Python
functions become Lean functions with the same name where possible, and
fallible builders return `Except`.  Python truthiness of a string is
emptiness of the list; `str.strip()` is `pyStrip`; `str.replace` on a
two-character pattern is `pyReplace2`; `str.format` with keyword
placeholders is `pyFormat` (restricted to simple `\x7bname\x7d` slots, the
only form the templates use).
-/

namespace Cmai

/-- The characters Python `str.strip()` removes at either end of an
ASCII string (space, tab, newline, carriage return, vertical tab,
form feed). -/
def isPySpace (c : Char) : Bool :=
  c = ' ' || c = '\t' || c = '\n' || c = '\x0d' || c = '\x0b' || c = '\x0c'

/-- Python `s.strip()`: drop leading and trailing whitespace. -/
def pyStrip (s : List Char) : List Char :=
  ((s.dropWhile isPySpace).reverse.dropWhile isPySpace).reverse

/-- Python `s.replace('\t', ' ')`: a single-character replacement is a map. -/
def tabToSpace (s : List Char) : List Char :=
  s.map (fun c => if c = '\t' then ' ' else c)

/-- ASCII lowercasing, modelling Python `str.lower()` on the ASCII
model names and diffs this tool handles. -/
def lowerList (s : List Char) : List Char :=
  s.map Char.toLower

/-- Python `needle in hay` substring containment. -/
def containsSub (hay needle : List Char) : Bool :=
  hay.tails.any (fun t => needle.isPrefixOf t)

/-- Python `any(needle in hay for needle in needles)`. -/
def containsAny (hay : List Char) (needles : List (List Char)) : Bool :=
  needles.any (fun n => containsSub hay n)

/-- Python `s.split('\n')`: split on every newline, keeping empty pieces. -/
def splitOnNl : List Char → List (List Char)
  | [] => [[]]
  | c :: rest =>
    if c = '\n' then [] :: splitOnNl rest
    else
      match splitOnNl rest with
      | [] => [[c]]
      | h :: t => (c :: h) :: t

/-- Python `s.replace(⟨a,b⟩, rep)` for a two-character pattern: scan left to
right, replacing non-overlapping occurrences of the pattern `[a, b]`. -/
def pyReplace2 (a b : Char) (rep : List Char) : List Char → List Char
  | [] => []
  | [c] => [c]
  | c :: d :: rest =>
    if c = a ∧ d = b then rep ++ pyReplace2 a b rep rest
    else c :: pyReplace2 a b rep (d :: rest)

/- ## Diff Sizer (`get_git_changes`, the pure sizing part, lines 336-361) -/

/-- Handling mode of the Diff Sizer: the spec names the three branches of
`get_git_changes` FULL / TRUNCATED / STAT_ONLY. -/
inductive DiffMode
  | FULL
  | TRUNCATED
  | STAT_ONLY
deriving DecidableEq

/-- Result of diff sizing: the (possibly truncated) diff text, the
`use_diff_content` flag and the `detailed_changes` stat summary, as in the
tuple `get_git_changes` returns. -/
structure DiffSizing where
  mode : DiffMode
  diff_content : List Char
  use_diff_content : Bool
  detailed_changes : List Char
deriving DecidableEq

def small_diff_limit : Nat := 15000

def medium_diff_limit : Nat := 50000

def truncate_to : Nat := 12000

/-- The fixed marker appended to a truncated diff:
`f"\n\n[... diff truncated due to size - showing first 12000 characters only]"`. -/
def truncationMarker : List Char :=
  ("\n\n[... diff truncated due to size - showing first " ++
   "12000 characters only]").data

/-- The pure sizing logic of `get_git_changes`: branch on the character
count of the staged diff.  `statOutput` stands for the output of
`git diff --cached --stat`, fetched only in the large branch. -/
def sizeDiff (diff_content statOutput : List Char) : DiffSizing :=
  if diff_content.length ≤ small_diff_limit then
    ⟨.FULL, diff_content, true, []⟩
  else if diff_content.length ≤ medium_diff_limit then
    ⟨.TRUNCATED, diff_content.take truncate_to ++ truncationMarker, true, []⟩
  else
    ⟨.STAT_ONLY, diff_content, false, statOutput⟩

/- ## Diff-or-stat section shared by both request builders -/

def diffSectionOpen : List Char := ("## Diff:\n<diff>\n").data

def diffSectionClose : List Char := ("\n</diff>").data

def statSectionOpen : List Char := ("## File statistics:\n<file_stats>\n").data

def statSectionClose : List Char :=
  ("\n</file_stats>\n\nNote: Diff content was too large to include. " ++
   "Please generate commit message based on file changes and statistics only.").data

/-- The `diff_section` text built in `build_openrouter_request` and
`build_ollama_request`: the diff wrapped in `<diff>` tags when
`use_diff` holds, else the stat summary wrapped in `<file_stats>` tags. -/
def buildDiffSection (use_diff : Bool) (diff detailed_changes : List Char) : List Char :=
  if use_diff then diffSectionOpen ++ diff ++ diffSectionClose
  else statSectionOpen ++ detailed_changes ++ statSectionClose

/- ## Model Tier Resolver (`get_model_tier`, lines 405-422) -/

inductive Tier
  | small
  | medium
  | large
deriving DecidableEq

/-- Large-model markers: `['32b', '30b', '70b', '72b']`. -/
def largeMarkers : List (List Char) :=
  [("32b").data, ("30b").data, ("70b").data, ("72b").data]

/-- Small-model markers: `['1.7b', '1b', '2b']`. -/
def smallMarkers : List (List Char) :=
  [("1.7b").data, ("1b").data, ("2b").data]

/-- Medium-model markers: `['3b', '4b', '7b', '8b']`. -/
def mediumMarkers : List (List Char) :=
  [("3b").data, ("4b").data, ("7b").data, ("8b").data]

/-- `get_model_tier`: lowercase the model name, then check the marker sets
in the fixed order large, small, medium; default to medium. -/
def get_model_tier (model : List Char) : Tier :=
  let model_lower := lowerList model
  if containsAny model_lower largeMarkers then Tier.large
  else if containsAny model_lower smallMarkers then Tier.small
  else if containsAny model_lower mediumMarkers then Tier.medium
  else Tier.medium

/-- The tier-specific template filename `f"\x7bmodel_tier\x7d_model.txt"`. -/
def tierFilename : Tier → String
  | Tier.small => "small_model.txt"
  | Tier.medium => "medium_model.txt"
  | Tier.large => "large_model.txt"

/- ## Template Store (`load_prompt_template`, lines 527-556) -/

/-- The three filesystem locations `load_prompt_template` consults, each a
map from filename to file content (`none` = file does not exist).  In the
source they are the `prompts` directory beside the script, the user config
directory's `prompts` subdirectory, and `~/git-commit-ai/prompts`. -/
structure TemplateEnv where
  scriptDirPrompts : String → Option (List Char)
  configDirPrompts : String → Option (List Char)
  installedPrompts : String → Option (List Char)

/-- `load_prompt_template`: try the three locations in order; the first
location whose file EXISTS wins, and its content is returned with leading
and trailing whitespace stripped (Python `.strip()`); an existing file is
returned even when the stripped content is empty.  Returns the empty
string when no location has the file. -/
def load_prompt_template (env : TemplateEnv) (filename : String) : List Char :=
  match env.scriptDirPrompts filename with
  | some content => pyStrip content
  | none =>
    match env.configDirPrompts filename with
    | some content => pyStrip content
    | none =>
      match env.installedPrompts filename with
      | some content => pyStrip content
      | none => []

/-- The `FileNotFoundError` message raised by the request builders:
`f"Required prompt template \x27\x7bfilename\x7d\x27 not found"`. -/
def missingMsg (filename : String) : List Char :=
  ("Required prompt template \x27" ++ filename ++ "\x27 not found").data

/-- A template environment whose script directory holds an empty `t.txt`
while the user config directory holds a non-empty `t.txt`. -/
def envEmptyShadow : TemplateEnv :=
  ⟨fun n => if n = "t.txt" then some [] else none,
   fun n => if n = "t.txt" then some ("hello").data else none,
   fun _ => none⟩

/-- A template environment whose script directory holds `t.txt` with
leading whitespace in its content. -/
def envLeadingWs : TemplateEnv :=
  ⟨fun n => if n = "t.txt" then some ("  x").data else none,
   fun _ => none,
   fun _ => none⟩

/- ## Change Classifier (`detect_change_context` and the four
`_is_*` detectors, lines 424-525) -/

/-- The character class `[<>=!]` of the first spacing pattern. -/
def opChar (c : Char) : Bool :=
  c = '<' || c = '>' || c = '=' || c = '!'

/-- The regex `[<>=!]\s*→\s*[<>=!]\s+` matched at the head of `s`.  The
greedy `\s*` runs are deterministic because neither `→` nor `[<>=!]`
is whitespace, and `\s+` demands one more whitespace character after the
second operator. -/
def spacingPat1At (s : List Char) : Bool :=
  match s with
  | c :: rest =>
    opChar c &&
      (match rest.dropWhile isPySpace with
       | '→' :: r2 =>
         (match r2.dropWhile isPySpace with
          | d :: e :: _ => opChar d && isPySpace e
          | _ => false)
       | _ => false)
  | [] => false

/-- `re.search` of the first spacing pattern: a match may start at any
position of the diff. -/
def spacingPat1Search (s : List Char) : Bool :=
  s.tails.any spacingPat1At

/-- Suffixes of `s` that begin just after a newline (used for the
`re.MULTILINE` anchor `^`). -/
def lineStartSuffixesAux : List Char → List (List Char)
  | [] => []
  | c :: t =>
    if c = '\n' then t :: lineStartSuffixesAux t else lineStartSuffixesAux t

/-- Suffixes of `s` that begin at a line start: position 0 or just after
a newline. -/
def lineStartSuffixes (s : List Char) : List (List Char) :=
  s :: lineStartSuffixesAux s

/-- The regex `^\+.*\s+$` (MULTILINE) matched at a line start: a `+`,
then any characters other than newline (`.*`), then at least one
whitespace character — `\s` may cross newlines — ending where `$` holds,
i.e. at end of string or before a newline. -/
def trailingWsPatAt (s : List Char) : Bool :=
  match s with
  | '+' :: t =>
    (List.range (t.length + 1)).any (fun i =>
      ((t.take i).all (fun c => c ≠ '\n')) &&
      ((List.range (t.drop i).length).any (fun j0 =>
        (((t.drop i).take (j0 + 1)).all isPySpace) &&
        (match (t.drop i).drop (j0 + 1) with
         | [] => true
         | c :: _ => c = '\n'))))
  | _ => false

/-- `re.search` of `^\+.*\s+$` with MULTILINE: a match may start at any
line start. -/
def trailingWsPatSearch (s : List Char) : Bool :=
  (lineStartSuffixes s).any trailingWsPatAt

/-- The regex `^\-\s*\+\s*` (MULTILINE) matched at a line start: a `-`,
optional whitespace (which may cross newlines), then a `+`; the trailing
`\s*` always matches. -/
def indentPatAt (s : List Char) : Bool :=
  match s with
  | '-' :: t =>
    (match t.dropWhile isPySpace with
     | '+' :: _ => true
     | _ => false)
  | _ => false

/-- `re.search` of `^\-\s*\+\s*` with MULTILINE. -/
def indentPatSearch (s : List Char) : Bool :=
  (lineStartSuffixes s).any indentPatAt

/-- The literal formatting indicators checked against the lowercased
diff. -/
def formattingIndicators : List (List Char) :=
  [(" < ").data, (" > ").data, (" = ").data, (" + ").data, (" - ").data,
   ("spacing").data, ("indentation").data, ("format").data]

/-- `_is_formatting_change`: any of the three spacing regex patterns
matches the diff, or a literal indicator occurs in the lowercased diff. -/
def _is_formatting_change (diff : List Char) : Bool :=
  spacingPat1Search diff || trailingWsPatSearch diff || indentPatSearch diff ||
    containsAny (lowerList diff) formattingIndicators

/-- The manifest/lockfile markers of `_is_dependency_change`.  Note
`Dockerfile` keeps its capital letter as in the source, where it can
never match the lowercased change list (the lowercase `docker` marker
subsumes it). -/
def depFiles : List (List Char) :=
  [("requirements.txt").data, ("package.json").data, ("package-lock.json").data,
   ("yarn.lock").data, ("Pipfile").data, ("Pipfile.lock").data, ("setup.py").data,
   ("pyproject.toml").data, ("Cargo.toml").data, ("Cargo.lock").data,
   (".yml").data, (".yaml").data, ("docker").data, ("Dockerfile").data]

/-- `_is_dependency_change`: a dependency-file marker occurs in the
lowercased change list. -/
def _is_dependency_change (changes : List Char) : Bool :=
  containsAny (lowerList changes) depFiles

/-- The generic performance keywords of `_is_performance_change`. -/
def perfKeywords : List (List Char) :=
  [("optimize").data, ("optimization").data, ("cache").data, ("caching").data,
   ("performance").data, ("speed").data, ("faster").data, ("efficient").data,
   ("inefficient").data, ("query performance").data]

/-- `_is_performance_change`: the loop-to-query structural patterns on
the lowercased diff, else the generic performance keywords. -/
def _is_performance_change (diff : List Char) : Bool :=
  let diff_lower := lowerList diff
  let loop_to_query :=
    (containsSub diff_lower ("for post in").data &&
      containsSub diff_lower ("append").data) ||
    (containsSub diff_lower ("for item in").data &&
      containsSub diff_lower ("list(").data) ||
    (containsSub diff_lower ("posts = []").data &&
      containsSub diff_lower ("return list(").data) ||
    (containsSub diff_lower ("select_related").data ||
      containsSub diff_lower ("prefetch_related").data)
  if loop_to_query then true
  else containsAny diff_lower perfKeywords

/-- The refactor keywords of `_is_large_refactor`. -/
def refactorKeywords : List (List Char) :=
  [("restructure").data, ("refactor").data, ("reorganize").data, ("split").data,
   ("architecture").data, ("modular").data, ("separate").data]

/-- `_is_large_refactor`: at least 3 non-blank lines in the change list,
or a refactor keyword in the lowercased change list. -/
def _is_large_refactor (changes : List Char) : Bool :=
  let file_count :=
    ((splitOnNl changes).filter (fun line => pyStrip line ≠ [])).length
  let has_refactor_keywords := containsAny (lowerList changes) refactorKeywords
  decide (3 ≤ file_count) || has_refactor_keywords

def formattingHint : List Char :=
  ("🎨 Spacing/formatting detected → use \x27style\x27 NOT \x27fix\x27").data

def dependencyHint : List Char :=
  ("🧹 Dependencies detected → use \x27chore\x27 NOT \x27fix\x27").data

def performanceHint : List Char :=
  ("⚡ Performance optimization → use \x27perf\x27 NOT \x27refactor\x27").data

def refactorHint : List Char :=
  ("🏗️ Multiple files changed → likely \x27refactor\x27 NOT \x27fix\x27").data

/-- `detect_change_context`: collect the advisory hints the four
detectors fire, joined by newlines; the empty string when none fires. -/
def detect_change_context (changes diff : List Char) : List Char :=
  let hints :=
    (if _is_formatting_change diff then [formattingHint] else []) ++
    (if _is_dependency_change changes then [dependencyHint] else []) ++
    (if _is_performance_change diff then [performanceHint] else []) ++
    (if _is_large_refactor changes then [refactorHint] else [])
  if hints = [] then [] else List.intercalate ("\n").data hints

/- ## Prompt Builder (`build_openrouter_request` lines 363-403 and
`build_ollama_request` lines 558-616) -/

/-- Placeholder substitution for Python `str.format` restricted to the
simple `\x7bname\x7d` slots the templates use: scan once left to right,
replacing each slot whose name is bound in `vars`; substituted text is
not re-scanned.  Brace escaping and format specs do not occur in the
templates and are not modelled.  `fuel` bounds the scan; every step
consumes at least one character, so `tpl.length` fuel always suffices. -/
def pyFormatAux (vars : List (List Char × List Char)) :
    Nat → List Char → List Char
  | _, [] => []
  | 0, s => s
  | fuel + 1, c :: rest =>
    if c = '\x7b' then
      match vars.findSome? (fun p =>
        if (p.1 ++ ['\x7d']).isPrefixOf rest then some (p.2, p.1.length + 1)
        else none) with
      | some (v, n) => v ++ pyFormatAux vars fuel (rest.drop n)
      | none => c :: pyFormatAux vars fuel rest
    else c :: pyFormatAux vars fuel rest

/-- Python `tpl.format(name=value, ...)` on the prompt templates. -/
def pyFormat (tpl : List Char) (vars : List (List Char × List Char)) : List Char :=
  pyFormatAux vars tpl.length tpl

def changesVar : List Char := ("changes").data

def diffSectionVar : List Char := ("diff_section").data

def instructionsVar : List Char := ("instructions").data

def finalCheckVar : List Char := ("final_check").data

/-- The chat-style request dict of `build_openrouter_request`: model,
`stream: false`, and a system message paired with the formatted user
message. -/
structure ChatRequest where
  model : List Char
  stream : Bool
  systemContent : List Char
  userContent : List Char
deriving DecidableEq

/-- The generate-style request dict of `build_ollama_request`: model,
single prompt, `stream: false`, `think: false`.  The floating-point
sampling options (`temperature`, `top_p`) are fixed constants irrelevant
to every claim and are not modelled. -/
structure GenerateRequest where
  model : List Char
  prompt : List Char
  stream : Bool
  think : Bool
deriving DecidableEq

/-- `build_openrouter_request`: load the system and user templates (each
absence is a `FileNotFoundError` with the template's name), build the
diff-or-stat section, format the user template. -/
def build_openrouter_request (env : TemplateEnv) (model changes diff : List Char)
    (use_diff : Bool) (detailed_changes : List Char) :
    Except (List Char) ChatRequest :=
  let system_message := load_prompt_template env "openrouter_system.txt"
  if system_message = [] then Except.error (missingMsg "openrouter_system.txt")
  else
    let user_template := load_prompt_template env "openrouter_user.txt"
    if user_template = [] then Except.error (missingMsg "openrouter_user.txt")
    else
      let diff_section := buildDiffSection use_diff diff detailed_changes
      let user_content := pyFormat user_template
        [(changesVar, changes), (diffSectionVar, diff_section)]
      Except.ok ⟨model, false, system_message, user_content⟩

/-- The header prepended to the smart context hints:
`f"\n\n🎯 SMART CONTEXT HINTS:\n\x7bsmart_hints\x7d"`. -/
def smartHintsHeader : List Char := ("\n\n🎯 SMART CONTEXT HINTS:\n").data

def nlnl : List Char := ("\n\n").data

/-- The instruction-augmentation step of `build_ollama_request` (lines
568-578): only for medium/small tiers, append the smart context hints
when any fire, then append the (optional) final-check template when it
is present; large-tier instructions are left untouched. -/
def ollamaInstructions (env : TemplateEnv) (model_tier : Tier)
    (instructions changes diff : List Char) : List Char :=
  if model_tier = Tier.medium ∨ model_tier = Tier.small then
    let smart_hints := detect_change_context changes diff
    let i1 :=
      if smart_hints = [] then instructions
      else instructions ++ smartHintsHeader ++ smart_hints
    let final_check_template := load_prompt_template env "final_check.txt"
    if final_check_template = [] then i1 else i1 ++ nlnl ++ final_check_template
  else instructions

/-- `build_ollama_request`: resolve the tier, load the tier template
(absence is fatal), augment the instructions for medium/small tiers,
load the base template (absence is fatal), and format the prompt; the
`final_check` slot is passed empty because the final check is handled
within the instructions. -/
def build_ollama_request (env : TemplateEnv) (model changes diff : List Char)
    (use_diff : Bool) (detailed_changes : List Char) :
    Except (List Char) GenerateRequest :=
  let model_tier := get_model_tier model
  let tier_template := load_prompt_template env (tierFilename model_tier)
  if tier_template = [] then Except.error (missingMsg (tierFilename model_tier))
  else
    let instructions := ollamaInstructions env model_tier tier_template changes diff
    let base_template := load_prompt_template env "ollama_base.txt"
    if base_template = [] then Except.error (missingMsg "ollama_base.txt")
    else
      let diff_section := buildDiffSection use_diff diff detailed_changes
      let prompt := pyFormat base_template
        [(changesVar, changes), (diffSectionVar, diff_section),
         (instructionsVar, instructions), (finalCheckVar, [])]
      Except.ok ⟨model, prompt, false, false⟩

inductive Provider
  | openrouter
  | ollama
  | lmstudio
  | custom
deriving DecidableEq

/-- A provider-shaped request payload. -/
inductive Request
  | chat (r : ChatRequest)
  | gen (r : GenerateRequest)
deriving DecidableEq

/-- The builder dispatch of `make_api_request`: ollama uses the
generate-style builder; lmstudio, openrouter and custom use the
chat-style builder. -/
def build_request (env : TemplateEnv) (provider : Provider)
    (model changes diff : List Char) (use_diff : Bool)
    (detailed_changes : List Char) : Except (List Char) Request :=
  match provider with
  | Provider.ollama =>
    (build_ollama_request env model changes diff use_diff detailed_changes).map
      Request.gen
  | _ =>
    (build_openrouter_request env model changes diff use_diff detailed_changes).map
      Request.chat

/-- How far a run gets before the network: stopped for missing staged
changes, stopped for a missing template, or a request was built. -/
inductive RunOutcome
  | noStagedChanges
  | missingTemplate (msg : List Char)
  | requestBuilt (r : Request)
deriving DecidableEq

/-- The pre-network part of `run` / `get_git_changes` /
`make_api_request`: compute the change list from the `--name-status`
output (tabs to spaces, then strip); an empty list is a hard stop before
any sizing, template loading or request building; otherwise size the
diff and build the provider request. -/
def run_to_request (env : TemplateEnv) (provider : Provider) (model : List Char)
    (nameStatusOut diffOut statOut : List Char) : RunOutcome :=
  let changes := pyStrip (tabToSpace nameStatusOut)
  if changes = [] then RunOutcome.noStagedChanges
  else
    let sz := sizeDiff diffOut statOut
    match build_request env provider model changes sz.diff_content
        sz.use_diff_content sz.detailed_changes with
    | Except.error m => RunOutcome.missingTemplate m
    | Except.ok r => RunOutcome.requestBuilt r

/-- A template environment with every template present except
`final_check.txt` and the chat-style templates. -/
def envNoFinalCheck : TemplateEnv :=
  ⟨fun n =>
     if n = "small_model.txt" then some ("Keep it short.").data
     else if n = "medium_model.txt" then some ("Balanced detail.").data
     else if n = "large_model.txt" then some ("Minimal guidance.").data
     else if n = "ollama_base.txt" then
       some ("\x7binstructions\x7d\n\x7bchanges\x7d\n\x7bdiff_section\x7d").data
     else none,
   fun _ => none,
   fun _ => none⟩

/-- A template environment with every template the two builders consult. -/
def envFull : TemplateEnv :=
  ⟨fun n =>
     if n = "openrouter_system.txt" then some ("You write commit messages.").data
     else if n = "openrouter_user.txt" then
       some ("## Changes:\n\x7bchanges\x7d\n\x7bdiff_section\x7d").data
     else if n = "small_model.txt" then some ("Keep it short.").data
     else if n = "medium_model.txt" then some ("Balanced detail.").data
     else if n = "large_model.txt" then some ("Minimal guidance.").data
     else if n = "final_check.txt" then some ("Final check: format.").data
     else if n = "ollama_base.txt" then
       some ("\x7binstructions\x7d\n\x7bchanges\x7d\n\x7bdiff_section\x7d\x7bfinal_check\x7d").data
     else none,
   fun _ => none,
   fun _ => none⟩

/- ## Response Extractor (`extract_commit_message`, lines 670-699) -/

/-- A parsed JSON value, as `json.loads` yields it: object fields keep
their (unique) keys in order; numbers are modelled as integers, no claim
involving fractional values. -/
inductive Json
  | null
  | bool (b : Bool)
  | num (n : Int)
  | str (s : List Char)
  | arr (elems : List Json)
  | obj (fields : List (List Char × Json))

/-- Python truthiness of a JSON-derived value, as tested by
`if not commit_message`. -/
def pyTruthy : Json → Bool
  | Json.null => false
  | Json.bool b => b
  | Json.num n => n != 0
  | Json.str s => !s.isEmpty
  | Json.arr elems => !elems.isEmpty
  | Json.obj fields => !fields.isEmpty

/-- The Python exceptions the extractor can raise or catch. -/
inductive PyExc
  | keyError
  | indexError
  | attributeError
  | typeError
deriving DecidableEq

/-- Python `x[key]` with a string key on a JSON-derived value: field
lookup on a dict (`KeyError` when the key is missing); `TypeError` on
every other type (lists and strings demand integer indices, the rest
are not subscriptable). -/
def pySubscriptField (j : Json) (key : List Char) : Except PyExc Json :=
  match j with
  | Json.obj fields =>
    match fields.lookup key with
    | some v => Except.ok v
    | none => Except.error PyExc.keyError
  | Json.arr _ => Except.error PyExc.typeError
  | Json.str _ => Except.error PyExc.typeError
  | _ => Except.error PyExc.typeError

/-- Python `x[i]` with an integer index: list indexing (`IndexError`
when out of range); a dict parsed from JSON has only string keys, so an
integer subscript is a `KeyError`; string indexing yields a
one-character string; `TypeError` otherwise. -/
def pySubscriptIndex (j : Json) (i : Nat) : Except PyExc Json :=
  match j with
  | Json.arr elems =>
    match elems.get? i with
    | some v => Except.ok v
    | none => Except.error PyExc.indexError
  | Json.obj _ => Except.error PyExc.keyError
  | Json.str s =>
    match s.get? i with
    | some c => Except.ok (Json.str [c])
    | none => Except.error PyExc.indexError
  | _ => Except.error PyExc.typeError

/-- Python `x.get(key, default)`: only dicts have `.get`; on every other
JSON-derived value the attribute access raises `AttributeError`. -/
def pyGetField (j : Json) (key : List Char) (deflt : Json) : Except PyExc Json :=
  match j with
  | Json.obj fields => Except.ok ((fields.lookup key).getD deflt)
  | _ => Except.error PyExc.attributeError

/-- The message-cleaning step of line 697: replace each literal
backslash-n with a newline character, REMOVE each literal backslash-r
(the replacement string in the source is empty), then strip surrounding
whitespace. -/
def cleanMessage (s : List Char) : List Char :=
  pyStrip (pyReplace2 '\x5c' 'r' [] (pyReplace2 '\x5c' 'n' ['\n'] s))

/-- The `sys.exit(1)` paths of `extract_commit_message`. -/
inductive ExitReason
  | jsonDecode
  | ollamaEmptyResponse
  | chatParseFailure
  | emptyCommitMessage
deriving DecidableEq

/-- How extraction ends: a commit message, a reported fatal error
(a `sys.exit(1)` path), or an uncaught Python exception. -/
inductive ExtractResult
  | ok (msg : List Char)
  | exits (r : ExitReason)
  | raises (e : PyExc)
deriving DecidableEq

/-- The common tail of `extract_commit_message` after the provider
branch: the pre-normalization truthiness check of line 692, then the
cleaning of line 697 (`.replace` on a non-string value raises
`AttributeError`). -/
def finalizeMessage (cm : Json) : ExtractResult :=
  if pyTruthy cm = false then ExtractResult.exits ExitReason.emptyCommitMessage
  else
    match cm with
    | Json.str s => ExtractResult.ok (cleanMessage s)
    | _ => ExtractResult.raises PyExc.attributeError

/-- `extract_commit_message`: `parsed` is the result of `json.loads`
(`none` = `JSONDecodeError`, reported fatally).  The ollama branch reads
the top-level `response` field via `.get` and exits on a falsy value;
the chat-style branch reads `choices[0].message.content`, catching only
`KeyError` and `IndexError`; both then run the common truthiness check
and the cleaning step. -/
def extract_commit_message (provider : Provider) (parsed : Option Json) :
    ExtractResult :=
  match parsed with
  | none => ExtractResult.exits ExitReason.jsonDecode
  | some response_data =>
    match provider with
    | Provider.ollama =>
      match pyGetField response_data ("response").data (Json.str []) with
      | Except.error e => ExtractResult.raises e
      | Except.ok cm =>
        if pyTruthy cm = false then
          ExtractResult.exits ExitReason.ollamaEmptyResponse
        else finalizeMessage cm
    | _ =>
      match (do
        let a ← pySubscriptField response_data ("choices").data
        let b ← pySubscriptIndex a 0
        let c ← pySubscriptField b ("message").data
        pySubscriptField c ("content").data : Except PyExc Json) with
      | Except.error PyExc.keyError =>
        ExtractResult.exits ExitReason.chatParseFailure
      | Except.error PyExc.indexError =>
        ExtractResult.exits ExitReason.chatParseFailure
      | Except.error e => ExtractResult.raises e
      | Except.ok cm => finalizeMessage cm

/-- A well-formed chat-style response body carrying message content `s`:
`{"choices": [{"message": {"content": s}}]}`. -/
def chatResponse (s : List Char) : Json :=
  Json.obj [(("choices").data, Json.arr
    [Json.obj [(("message").data, Json.obj [(("content").data, Json.str s)])]])]

end Cmai

namespace Cmai

/-- Claim C1: for a staged diff of character length L, the sizer yields
FULL with the diff verbatim when L ≤ 15000; TRUNCATED with exactly the
first 12000 characters followed by the fixed marker (which names the
12000-character cutoff) when 15000 < L ≤ 50000; and STAT_ONLY with the
use-diff flag false when L > 50000, in which case the built diff section
does not depend on the diff text and embeds the stat summary instead. -/
theorem diff_sizer_three_modes (diff stat : List Char) :
    (diff.length ≤ 15000 →
      (sizeDiff diff stat).mode = DiffMode.FULL ∧
      (sizeDiff diff stat).diff_content = diff ∧
      (sizeDiff diff stat).use_diff_content = true ∧
      buildDiffSection true ((sizeDiff diff stat).diff_content) stat =
        diffSectionOpen ++ diff ++ diffSectionClose) ∧
    (15000 < diff.length → diff.length ≤ 50000 →
      (sizeDiff diff stat).mode = DiffMode.TRUNCATED ∧
      (sizeDiff diff stat).diff_content = diff.take 12000 ++ truncationMarker ∧
      (sizeDiff diff stat).use_diff_content = true ∧
      containsSub truncationMarker ("12000").data = true) ∧
    (50000 < diff.length →
      (sizeDiff diff stat).mode = DiffMode.STAT_ONLY ∧
      (sizeDiff diff stat).use_diff_content = false ∧
      (sizeDiff diff stat).detailed_changes = stat ∧
      ∀ d : List Char,
        buildDiffSection ((sizeDiff diff stat).use_diff_content) d stat =
          statSectionOpen ++ stat ++ statSectionClose) := by
  unfold sizeDiff small_diff_limit medium_diff_limit truncate_to
  refine ⟨fun h1 => ?_, fun h1 h2 => ?_, fun h1 => ?_⟩
  · rw [if_pos h1]
    exact ⟨rfl, rfl, rfl, rfl⟩
  · rw [if_neg (by omega), if_pos h2]
    exact ⟨rfl, rfl, rfl, by decide⟩
  · rw [if_neg (by omega), if_neg (by omega)]
    exact ⟨rfl, rfl, rfl, fun d => rfl⟩

/-- Witness for C1: concrete diffs of lengths 100, 20000 and 50001 land in
the three branches. -/
theorem diff_sizer_three_modes_witness :
    ((sizeDiff (List.replicate 100 'a') []).mode = DiffMode.FULL ∧
      (sizeDiff (List.replicate 100 'a') []).diff_content = List.replicate 100 'a') ∧
    ((sizeDiff (List.replicate 20000 'a') []).mode = DiffMode.TRUNCATED ∧
      (sizeDiff (List.replicate 20000 'a') []).diff_content =
        (List.replicate 20000 'a').take 12000 ++ truncationMarker) ∧
    ((sizeDiff (List.replicate 50001 'a') ("s").data).mode = DiffMode.STAT_ONLY ∧
      (sizeDiff (List.replicate 50001 'a') ("s").data).use_diff_content = false) := by
  have h1 := (diff_sizer_three_modes (List.replicate 100 'a') []).1
    (by rw [List.length_replicate]; omega)
  have h2 := (diff_sizer_three_modes (List.replicate 20000 'a') []).2.1
    (by rw [List.length_replicate]; omega) (by rw [List.length_replicate]; omega)
  have h3 := (diff_sizer_three_modes (List.replicate 50001 'a') ("s").data).2.2
    (by rw [List.length_replicate]; omega)
  exact ⟨⟨h1.1, h1.2.1⟩, ⟨h2.1, h2.2.1⟩, ⟨h3.1, h3.2.1⟩⟩

/-- Claim C3: tier resolution lowercases the model string and checks the
marker sets in the fixed order large, small, medium, defaulting to medium;
a string containing both a large and a small marker, such as
`model-32b-1b`, resolves to large; and resolving the same string twice
gives the same result. -/
theorem model_tier_resolution (model : List Char) :
    (containsAny (lowerList model) largeMarkers = true →
      get_model_tier model = Tier.large) ∧
    (containsAny (lowerList model) largeMarkers = false →
      containsAny (lowerList model) smallMarkers = true →
      get_model_tier model = Tier.small) ∧
    (containsAny (lowerList model) largeMarkers = false →
      containsAny (lowerList model) smallMarkers = false →
      containsAny (lowerList model) mediumMarkers = true →
      get_model_tier model = Tier.medium) ∧
    (containsAny (lowerList model) largeMarkers = false →
      containsAny (lowerList model) smallMarkers = false →
      containsAny (lowerList model) mediumMarkers = false →
      get_model_tier model = Tier.medium) ∧
    get_model_tier ("model-32b-1b").data = Tier.large ∧
    get_model_tier model = get_model_tier model := by
  unfold get_model_tier
  refine ⟨fun h1 => ?_, fun h1 h2 => ?_, fun h1 h2 h3 => ?_, fun h1 h2 h3 => ?_,
    by decide, rfl⟩
  · rw [if_pos h1]
  · rw [if_neg (by simp [h1]), if_pos h2]
  · rw [if_neg (by simp [h1]), if_neg (by simp [h2]), if_pos h3]
  · rw [if_neg (by simp [h1]), if_neg (by simp [h2]), if_neg (by simp [h3])]

/-- Witness for C3: a model name with both a large and a small marker
resolves to large; a model name with only a small marker resolves to
small; a marker-free name defaults to medium. -/
theorem model_tier_resolution_witness :
    get_model_tier ("model-32b-1b").data = Tier.large ∧
    get_model_tier ("qwen3:1.7b").data = Tier.small ∧
    get_model_tier ("mystery-model").data = Tier.medium :=
  ⟨(model_tier_resolution ("model-32b-1b").data).1 (by decide),
   (model_tier_resolution ("qwen3:1.7b").data).2.1 (by decide) (by decide),
   (model_tier_resolution ("mystery-model").data).2.2.2.1
     (by decide) (by decide) (by decide)⟩

/-- Counterexample for C4: the template lookup returns on the FIRST
EXISTING file even when its content is empty — an empty `t.txt` beside
the script shadows a non-empty `t.txt` in the user config directory, so
the lookup does not fall through on empty files as the claim states; and
leading (not only trailing) whitespace is stripped from the returned
content. -/
theorem template_lookup_cex :
    load_prompt_template envEmptyShadow "t.txt" = [] ∧
    envEmptyShadow.configDirPrompts "t.txt" = some ("hello").data ∧
    ([] : List Char) ≠ ("hello").data ∧
    load_prompt_template envLeadingWs "t.txt" = ("x").data ∧
    envLeadingWs.scriptDirPrompts "t.txt" = some ("  x").data ∧
    ("x").data ≠ ("  x").data := by
  refine ⟨by decide, by decide, by decide, by decide, by decide, by decide⟩

/-- Amended C4: the template lookup tries the three locations in the
fixed order and returns the stripped content of the first location whose
file exists — even when that stripped content is empty, with no
fall-through — and returns the empty string when the file is absent from
all three locations. -/
theorem template_lookup_first_existing (env : TemplateEnv) (name : String) :
    (∀ c, env.scriptDirPrompts name = some c →
      load_prompt_template env name = pyStrip c) ∧
    (env.scriptDirPrompts name = none →
      ∀ c, env.configDirPrompts name = some c →
      load_prompt_template env name = pyStrip c) ∧
    (env.scriptDirPrompts name = none → env.configDirPrompts name = none →
      ∀ c, env.installedPrompts name = some c →
      load_prompt_template env name = pyStrip c) ∧
    (env.scriptDirPrompts name = none → env.configDirPrompts name = none →
      env.installedPrompts name = none →
      load_prompt_template env name = []) := by
  unfold load_prompt_template
  refine ⟨fun c h => ?_, fun h1 c h => ?_, fun h1 h2 c h => ?_, fun h1 h2 h3 => ?_⟩
  · rw [h]
  · rw [h1, h]
  · rw [h1, h2, h]
  · rw [h1, h2, h3]

/-- Witness for amended C4: concrete lookups through each location. -/
theorem template_lookup_first_existing_witness :
    load_prompt_template envLeadingWs "t.txt" = pyStrip ("  x").data ∧
    load_prompt_template envEmptyShadow "absent.txt" = [] :=
  ⟨(template_lookup_first_existing envLeadingWs "t.txt").1 ("  x").data (by decide),
   (template_lookup_first_existing envEmptyShadow "absent.txt").2.2.2
     (by decide) (by decide) (by decide)⟩

/-- Claim C9: the large-refactor hint fires exactly when the change list
has at least 3 non-blank lines or its lowercased text contains a
refactor keyword; in particular it fires for any list with at least 3
non-blank lines, regardless of keyword content. -/
theorem large_refactor_condition (changes : List Char) :
    (_is_large_refactor changes = true ↔
      3 ≤ ((splitOnNl changes).filter (fun line => pyStrip line ≠ [])).length ∨
      containsAny (lowerList changes) refactorKeywords = true) ∧
    (3 ≤ ((splitOnNl changes).filter (fun line => pyStrip line ≠ [])).length →
      _is_large_refactor changes = true) := by
  unfold _is_large_refactor
  constructor
  · simp [Bool.or_eq_true, decide_eq_true_iff]
  · intro h
    simp only [Bool.or_eq_true, decide_eq_true_iff]
    exact Or.inl h

/-- Witness for C9: a three-file change list without any refactor keyword
fires the large-refactor hint. -/
theorem large_refactor_condition_witness :
    3 ≤ ((splitOnNl ("M a.py\nM b.py\nM c.py").data).filter
      (fun line => pyStrip line ≠ [])).length ∧
    _is_large_refactor ("M a.py\nM b.py\nM c.py").data = true ∧
    containsAny (lowerList ("M a.py\nM b.py\nM c.py").data) refactorKeywords
      = false :=
  ⟨by decide,
   (large_refactor_condition ("M a.py\nM b.py\nM c.py").data).2 (by decide),
   by decide⟩

/-- A list occurring in the middle of an append is a substring. -/
theorem containsSub_of_middle (p n s : List Char) :
    containsSub (p ++ (n ++ s)) n = true := by
  unfold containsSub
  rw [List.any_eq_true]
  refine ⟨n ++ s, ?_, ?_⟩
  · rw [List.mem_tails]
    exact List.suffix_append p (n ++ s)
  · rw [List.isPrefixOf_iff_prefix]
    exact List.prefix_append n s

/-- The missing-template error message contains the missing filename. -/
theorem missingMsg_names_file (name : String) :
    containsSub (missingMsg name) name.data = true := by
  unfold missingMsg
  rw [String.append_assoc, String.data_append]
  exact containsSub_of_middle _ _ _

/-- Counterexample for C2: `final_check.txt` is NOT a required template —
with it absent from all three locations (and the tier and base templates
present) the generate-style builder still succeeds instead of failing
with a missing-resource error. -/
theorem required_templates_cex :
    load_prompt_template envNoFinalCheck "final_check.txt" = [] ∧
    (build_ollama_request envNoFinalCheck ("qwen3:1.7b").data ("M a.py").data
      ("+x").data true []).isOk = true := by
  exact ⟨by decide, by decide⟩

/-- Amended C2: the required templates are the chat-style system-message
and user-message templates, and for the single-prompt provider the
tier-specific template and the base template; if any of these loads as
empty/absent the builder fails with a missing-resource error naming the
template file, and no built-in fallback is substituted; the final-check
template, by contrast, is optional and silently skipped when absent. -/
theorem required_templates_missing (env : TemplateEnv)
    (model changes diff : List Char) (use_diff : Bool)
    (detailed_changes : List Char) :
    (load_prompt_template env "openrouter_system.txt" = [] →
      build_openrouter_request env model changes diff use_diff detailed_changes =
        Except.error (missingMsg "openrouter_system.txt")) ∧
    (load_prompt_template env "openrouter_system.txt" ≠ [] →
      load_prompt_template env "openrouter_user.txt" = [] →
      build_openrouter_request env model changes diff use_diff detailed_changes =
        Except.error (missingMsg "openrouter_user.txt")) ∧
    (load_prompt_template env (tierFilename (get_model_tier model)) = [] →
      build_ollama_request env model changes diff use_diff detailed_changes =
        Except.error (missingMsg (tierFilename (get_model_tier model)))) ∧
    (load_prompt_template env (tierFilename (get_model_tier model)) ≠ [] →
      load_prompt_template env "ollama_base.txt" = [] →
      build_ollama_request env model changes diff use_diff detailed_changes =
        Except.error (missingMsg "ollama_base.txt")) ∧
    (∀ name : String, containsSub (missingMsg name) name.data = true) := by
  refine ⟨fun h1 => ?_, fun h1 h2 => ?_, fun h1 => ?_, fun h1 h2 => ?_,
    missingMsg_names_file⟩
  · unfold build_openrouter_request
    rw [if_pos h1]
  · unfold build_openrouter_request
    rw [if_neg h1, if_pos h2]
  · unfold build_ollama_request
    rw [if_pos h1]
  · unfold build_ollama_request
    rw [if_neg h1, if_pos h2]

/-- Witness for amended C2: with an empty environment every required
template is reported missing by name. -/
theorem required_templates_missing_witness :
    build_openrouter_request ⟨fun _ => none, fun _ => none, fun _ => none⟩
      ("m").data ("c").data ("d").data true [] =
      Except.error (missingMsg "openrouter_system.txt") ∧
    build_ollama_request ⟨fun _ => none, fun _ => none, fun _ => none⟩
      ("m").data ("c").data ("d").data true [] =
      Except.error (missingMsg "medium_model.txt") := by
  constructor
  · exact (required_templates_missing ⟨fun _ => none, fun _ => none, fun _ => none⟩
      ("m").data ("c").data ("d").data true []).1 (by decide)
  · have h := (required_templates_missing ⟨fun _ => none, fun _ => none, fun _ => none⟩
      ("m").data ("c").data ("d").data true []).2.2.1 (by decide)
    rw [h]
    rfl

/-- Claim C7: when the staged-change list (the `--name-status` output
with tabs replaced by spaces, stripped) is empty, the run stops with the
user-input error before any template is consulted and before any request
is built, for every provider and template environment. -/
theorem no_staged_changes_stops (env : TemplateEnv) (provider : Provider)
    (model nameStatusOut diffOut statOut : List Char)
    (h : pyStrip (tabToSpace nameStatusOut) = []) :
    run_to_request env provider model nameStatusOut diffOut statOut =
      RunOutcome.noStagedChanges ∧
    ∀ r, run_to_request env provider model nameStatusOut diffOut statOut ≠
      RunOutcome.requestBuilt r := by
  constructor
  · simp [run_to_request, h]
  · intro r
    simp [run_to_request, h]

/-- Witness for C7: whitespace-and-tab-only `--name-status` output stops
the run for every provider even with all templates present. -/
theorem no_staged_changes_stops_witness :
    run_to_request envFull Provider.openrouter ("m").data
      ("\t \n").data ("+x").data [] = RunOutcome.noStagedChanges ∧
    run_to_request envFull Provider.ollama ("m").data
      ("\t \n").data ("+x").data [] = RunOutcome.noStagedChanges :=
  ⟨(no_staged_changes_stops envFull Provider.openrouter ("m").data
      ("\t \n").data ("+x").data [] (by decide)).1,
   (no_staged_changes_stops envFull Provider.ollama ("m").data
      ("\t \n").data ("+x").data [] (by decide)).1⟩

/-- Claim C8: in the generate-style builder, Change Classifier hints and
the final-check template are appended to the tier-specific instructions
exactly for the medium/small tiers — each appended when non-empty — and
for the large tier the instructions are the large-tier template alone;
and when both required templates are present the built prompt formats
exactly these instructions into the base template. -/
theorem tier_gated_hints (env : TemplateEnv) (model changes diff : List Char)
    (use_diff : Bool) (detailed_changes : List Char) :
    (get_model_tier model = Tier.large →
      ollamaInstructions env (get_model_tier model)
        (load_prompt_template env (tierFilename (get_model_tier model)))
        changes diff =
      load_prompt_template env "large_model.txt") ∧
    (get_model_tier model = Tier.medium ∨ get_model_tier model = Tier.small →
      ollamaInstructions env (get_model_tier model)
        (load_prompt_template env (tierFilename (get_model_tier model)))
        changes diff =
      load_prompt_template env (tierFilename (get_model_tier model)) ++
        (if detect_change_context changes diff = [] then []
         else smartHintsHeader ++ detect_change_context changes diff) ++
        (if load_prompt_template env "final_check.txt" = [] then []
         else nlnl ++ load_prompt_template env "final_check.txt")) ∧
    (load_prompt_template env (tierFilename (get_model_tier model)) ≠ [] →
      load_prompt_template env "ollama_base.txt" ≠ [] →
      build_ollama_request env model changes diff use_diff detailed_changes =
        Except.ok ⟨model,
          pyFormat (load_prompt_template env "ollama_base.txt")
            [(changesVar, changes),
             (diffSectionVar, buildDiffSection use_diff diff detailed_changes),
             (instructionsVar, ollamaInstructions env (get_model_tier model)
               (load_prompt_template env (tierFilename (get_model_tier model)))
               changes diff),
             (finalCheckVar, [])],
          false, false⟩) := by
  refine ⟨fun h => ?_, fun h => ?_, fun h1 h2 => ?_⟩
  · rw [h]
    simp [ollamaInstructions, tierFilename]
  · rcases h with h | h <;> rw [h] <;>
      · unfold ollamaInstructions
        rw [if_pos (by simp)]
        rcases eq_or_ne (detect_change_context changes diff) [] with hd | hd <;>
          rcases eq_or_ne (load_prompt_template env "final_check.txt") []
            with hf | hf <;>
            simp [hd, hf, List.append_assoc]
  · unfold build_ollama_request
    rw [if_neg h1, if_neg h2]

/-- Witness for C8: with every template present, a large-tier model gets
the large template alone while a small-tier model gets the tier template
with hints and the final check appended; both required templates present
yields a built request. -/
theorem tier_gated_hints_witness :
    (get_model_tier ("llama-70b").data = Tier.large ∧
     ollamaInstructions envFull (get_model_tier ("llama-70b").data)
       (load_prompt_template envFull (tierFilename (get_model_tier ("llama-70b").data)))
       ("M a.py").data ("+x").data =
       load_prompt_template envFull "large_model.txt") ∧
    (get_model_tier ("qwen3:1.7b").data = Tier.small ∧
     ollamaInstructions envFull (get_model_tier ("qwen3:1.7b").data)
       (load_prompt_template envFull (tierFilename (get_model_tier ("qwen3:1.7b").data)))
       ("M a.py\nM b.py\nM c.py").data ("+x").data =
       load_prompt_template envFull (tierFilename (get_model_tier ("qwen3:1.7b").data)) ++
         (if detect_change_context ("M a.py\nM b.py\nM c.py").data ("+x").data = []
          then []
          else smartHintsHeader ++
            detect_change_context ("M a.py\nM b.py\nM c.py").data ("+x").data) ++
         (if load_prompt_template envFull "final_check.txt" = [] then []
          else nlnl ++ load_prompt_template envFull "final_check.txt")) :=
  ⟨⟨by decide,
    (tier_gated_hints envFull ("llama-70b").data ("M a.py").data ("+x").data
      true []).1 (by decide)⟩,
   ⟨by decide,
    (tier_gated_hints envFull ("qwen3:1.7b").data
      ("M a.py\nM b.py\nM c.py").data ("+x").data true []).2.1
      (Or.inr (by decide))⟩⟩

/-- Counterexample for C5: the extractor REMOVES each literal
backslash-r sequence instead of replacing it with a carriage-return
control character — on the message `a\x5crb` the code yields `ab`, not
`a`, carriage return, `b` as the claim states. -/
theorem escape_normalization_cex :
    extract_commit_message Provider.ollama
      (some (Json.obj [(("response").data, Json.str ("a\x5crb").data)])) =
      ExtractResult.ok ("ab").data ∧
    ("ab").data ≠ ['a', '\x0d', 'b'] :=
  ⟨rfl, by decide⟩

/-- Amended C5: for every successfully parsed truthy message string, the
returned commit message equals the input after replacing each literal
backslash-n with a newline character, DELETING each literal backslash-r,
and then trimming surrounding whitespace. -/
theorem escape_normalization (s : List Char)
    (h : pyTruthy (Json.str s) = true) :
    extract_commit_message Provider.ollama
      (some (Json.obj [(("response").data, Json.str s)])) =
      ExtractResult.ok (pyStrip (pyReplace2 '\x5c' 'r' []
        (pyReplace2 '\x5c' 'n' ['\n'] s))) := by
  simp [extract_commit_message, pyGetField, List.lookup, finalizeMessage,
    cleanMessage, h]

/-- Witness for amended C5: a message with both escape sequences and
surrounding whitespace. -/
theorem escape_normalization_witness :
    pyTruthy (Json.str (" a\x5cnb\x5crc ").data) = true ∧
    extract_commit_message Provider.ollama
      (some (Json.obj [(("response").data, Json.str (" a\x5cnb\x5crc ").data)])) =
      ExtractResult.ok (pyStrip (pyReplace2 '\x5c' 'r' []
        (pyReplace2 '\x5c' 'n' ['\n'] (" a\x5cnb\x5crc ").data))) :=
  ⟨by decide, escape_normalization (" a\x5cnb\x5crc ").data (by decide)⟩

/-- Counterexample for C6: a whitespace-only message is truthy, so it
passes the pre-normalization emptiness checks, normalizes to the empty
string and is RETURNED as an empty commit message — no fatal error is
raised, neither for the generate-style provider nor for a chat-style
provider. -/
theorem empty_after_normalization_cex :
    extract_commit_message Provider.ollama
      (some (Json.obj [(("response").data, Json.str ("   ").data)])) =
      ExtractResult.ok [] ∧
    extract_commit_message Provider.openrouter
      (some (chatResponse ("   ").data)) = ExtractResult.ok [] ∧
    (∀ r : ExitReason, ExtractResult.ok [] ≠ ExtractResult.exits r) :=
  ⟨rfl, rfl, fun _ h => nomatch h⟩

/-- Amended C6: the emptiness check runs BEFORE normalization — a falsy
(empty) extracted message is a fatal error, but a non-empty message that
normalizes to the empty string (e.g. whitespace only) is returned as an
empty commit message. -/
theorem empty_message_check (s : List Char) :
    (pyTruthy (Json.str s) = false →
      extract_commit_message Provider.ollama
        (some (Json.obj [(("response").data, Json.str s)])) =
        ExtractResult.exits ExitReason.ollamaEmptyResponse) ∧
    (pyTruthy (Json.str s) = false →
      extract_commit_message Provider.openrouter (some (chatResponse s)) =
        ExtractResult.exits ExitReason.emptyCommitMessage) ∧
    (pyTruthy (Json.str s) = true →
      extract_commit_message Provider.ollama
        (some (Json.obj [(("response").data, Json.str s)])) =
        ExtractResult.ok (cleanMessage s)) ∧
    (pyTruthy (Json.str s) = true →
      extract_commit_message Provider.openrouter (some (chatResponse s)) =
        ExtractResult.ok (cleanMessage s)) := by
  have ho : extract_commit_message Provider.ollama
      (some (Json.obj [(("response").data, Json.str s)])) =
      (if pyTruthy (Json.str s) = false then
        ExtractResult.exits ExitReason.ollamaEmptyResponse
       else finalizeMessage (Json.str s)) := rfl
  have hc : extract_commit_message Provider.openrouter (some (chatResponse s)) =
      finalizeMessage (Json.str s) := rfl
  refine ⟨fun h => ?_, fun h => ?_, fun h => ?_, fun h => ?_⟩
  · rw [ho, if_pos h]
  · rw [hc]
    unfold finalizeMessage
    rw [if_pos h]
  · rw [ho, if_neg (by simp [h])]
    unfold finalizeMessage
    rw [if_neg (by simp [h])]
  · rw [hc]
    unfold finalizeMessage
    rw [if_neg (by simp [h])]

/-- Witness for amended C6: the empty message exits fatally; the
whitespace-only message is returned (as the empty commit message). -/
theorem empty_message_check_witness :
    extract_commit_message Provider.ollama
      (some (Json.obj [(("response").data, Json.str [])])) =
      ExtractResult.exits ExitReason.ollamaEmptyResponse ∧
    extract_commit_message Provider.openrouter
      (some (chatResponse ("   ").data)) =
      ExtractResult.ok (cleanMessage ("   ").data) :=
  ⟨(empty_message_check []).1 (by decide),
   (empty_message_check ("   ").data).2.2.2 (by decide)⟩

/-- Claim C10: on valid JSON that is not an object, here `[1, 2]`, the
extractor does not reach the guarded malformed-response path: the field
access raises `AttributeError` for the generate-style provider and
`TypeError` for the chat-style providers, neither of which is caught by
the handler for `KeyError`/`IndexError`, so no reported-error exit
occurs. -/
theorem non_object_json_uncaught :
    extract_commit_message Provider.ollama
      (some (Json.arr [Json.num 1, Json.num 2])) =
      ExtractResult.raises PyExc.attributeError ∧
    extract_commit_message Provider.openrouter
      (some (Json.arr [Json.num 1, Json.num 2])) =
      ExtractResult.raises PyExc.typeError ∧
    extract_commit_message Provider.lmstudio
      (some (Json.arr [Json.num 1, Json.num 2])) =
      ExtractResult.raises PyExc.typeError ∧
    extract_commit_message Provider.custom
      (some (Json.arr [Json.num 1, Json.num 2])) =
      ExtractResult.raises PyExc.typeError ∧
    (∀ r : ExitReason,
      ExtractResult.raises PyExc.attributeError ≠ ExtractResult.exits r) ∧
    (∀ r : ExitReason,
      ExtractResult.raises PyExc.typeError ≠ ExtractResult.exits r) :=
  ⟨rfl, rfl, rfl, rfl,
   fun _ h => ExtractResult.noConfusion h,
   fun _ h => ExtractResult.noConfusion h⟩

end Cmai
